import Mathlib

/-!
Shallow embedding of the aviator-socket-server game engine
(`src/socket-server.js`, with the older revision in `src/unnamed/part_000`
noted where it differs).

Discrete state machine part: multiplier values are modelled as exact
rationals (`ℚ`), round numbers as naturals.  The JS `Map` used for
`roundMultipliers` is modelled as an association list with unique keys,
updated in place exactly as `Map.set` does.

The real-valued animation curve (`calculateMultiplier`,
`estimateTimeToMultiplier`, and the flying-phase tick of
`startFlyingPhase`) is embedded over `ℝ` further below, with
`Math.random()` draws made explicit parameters in `[0,1)`.
-/

/-- The four game phases of `gamePhase` in socket-server.js. -/
inductive Phase
  | wait
  | betting
  | flying
  | crashed
deriving DecidableEq, Repr

/-- One element of the `multipliers` array accepted by `POST /queue`:
either a bare number or an object `{multiplier, round_number}`. -/
inductive Item
  | plain (m : ℚ)
  | tagged (m : ℚ) (r : ℕ)
deriving DecidableEq, Repr

/-- `typeof item === 'number' ? item : item.multiplier`. -/
def itemMultiplier : Item → ℚ
  | .plain m => m
  | .tagged m _ => m

/-- `typeof item === 'number' ? (startRound + index) : item.round_number`.
(When `startRound` is absent the JS computes `undefined + index = NaN`;
no natural number models that key, so the model uses `startRound = 0`
for an absent/falsy field — the claims below never exercise a plain
item together with an absent `startRound`.) -/
def roundNumberOf (startRound idx : ℕ) : Item → ℕ
  | .plain _ => startRound + idx
  | .tagged _ r => r

/-- `roundMultipliers.get(k)` on the association-list model of the JS Map. -/
def mapGet : List (ℕ × ℚ) → ℕ → Option ℚ
  | [], _ => none
  | (k', v') :: rest, k => if k' = k then some v' else mapGet rest k

/-- `roundMultipliers.set(k, v)`: replace the entry if the key is present
(JS Maps hold each key once), otherwise append it, preserving insertion
order exactly as `Map.set` does. -/
def mapSet : List (ℕ × ℚ) → ℕ → ℚ → List (ℕ × ℚ)
  | [], k, v => [(k, v)]
  | (k', v') :: rest, k, v =>
    if k' = k then (k, v) :: rest else (k', v') :: mapSet rest k v

/-- `roundMultipliers.has(k)`. -/
def hasEntry (m : List (ℕ × ℚ)) (k : ℕ) : Bool :=
  (mapGet m k).isSome

/-- The mutable globals of socket-server.js that the claims are about. -/
structure GameState where
  multiplierQueue : List ℚ
  roundMultipliers : List (ℕ × ℚ)
  currentRound : ℕ
  currentMultiplier : ℚ
  crashPoint : Option ℚ
  gamePhase : Phase
deriving DecidableEq, Repr

/-- Initial values of the globals (lines 33-38 of socket-server.js). -/
def initialState : GameState :=
  { multiplierQueue := []
    roundMultipliers := []
    currentRound := 0
    currentMultiplier := 1
    crashPoint := none
    gamePhase := .wait }

/-- The round-synchronization block of `POST /queue`
(socket-server.js lines 176-197).  The outer JS guard `if (startRound)`
is truthiness: it fails for an absent field and for `0` alike, which the
model folds into `startRound ≠ 0`. -/
def syncRound (cur startRound : ℕ) (ledger : List (ℕ × ℚ)) : ℕ :=
  if startRound ≠ 0 then
    if cur = 0 then startRound
    else if cur < startRound then startRound
    else if startRound < cur then
      if hasEntry ledger cur then cur else startRound
    else cur
  else cur

/-- The ledger writes of `POST /queue` (`multipliers.forEach` with index,
socket-server.js lines 158-163), threading the running index. -/
def writeBatch : List (ℕ × ℚ) → ℕ → ℕ → List Item → List (ℕ × ℚ)
  | m, _, _, [] => m
  | m, sr, idx, it :: rest =>
    writeBatch (mapSet m (roundNumberOf sr idx it) (itemMultiplier it)) sr (idx + 1) rest

/-- The round numbers a batch writes to the ledger, in order. -/
def batchRounds : ℕ → ℕ → List Item → List ℕ
  | _, _, [] => []
  | sr, idx, it :: rest => roundNumberOf sr idx it :: batchRounds sr (idx + 1) rest

/-- Common tail of `startNextRound` once a crash point is chosen:
`currentMultiplier = 1.00; gamePhase = 'betting'` (plus the `round:start`
broadcast, which carries no state). -/
def beginBetting (s : GameState) : GameState :=
  { s with currentMultiplier := 1, gamePhase := .betting }

/-- `startNextRound()` (socket-server.js lines 441-487).  An empty queue
parks the engine in `wait`.  Otherwise the crash point is taken from the
ledger entry for `currentRound` when that entry is truthy
(`if (!roundMultiplier)` treats a missing entry and a stored `0` alike),
falling back to the queue head; the queue head is shifted in either
case. -/
def startNextRound (s : GameState) : GameState :=
  match s.multiplierQueue with
  | [] => { s with gamePhase := .wait }
  | c :: rest =>
    match mapGet s.roundMultipliers s.currentRound with
    | some m =>
      if m = 0 then
        beginBetting { s with crashPoint := some c, multiplierQueue := rest }
      else
        beginBetting { s with crashPoint := some m, multiplierQueue := rest }
    | none =>
      beginBetting { s with crashPoint := some c, multiplierQueue := rest }

/-- State effect of `startFlyingPhase()` in socket-server.js
(lines 489-507): phase becomes `flying`, multiplier resets to 1.00.
This revision has no instant-crash branch; the emission behaviour of the
animation ticks is modelled over `ℝ` below. -/
def startFlyingPhase (s : GameState) : GameState :=
  { s with gamePhase := .flying, currentMultiplier := 1 }

/-- `crashRound()` (socket-server.js lines 545-566): phase `crashed`,
`currentMultiplier = crashPoint`, and the crash point is recorded in the
ledger under `currentRound`.  (`crashPoint` is always set when a round
is flying; the `none` branch is unreachable from real traces and is a
no-op write here, where JS would store `null`.) -/
def crashRound (s : GameState) : GameState :=
  match s.crashPoint with
  | some c =>
    { s with gamePhase := .crashed
             currentMultiplier := c
             roundMultipliers := mapSet s.roundMultipliers s.currentRound c }
  | none => { s with gamePhase := .crashed }

/-- The wait-timer callback scheduled by `crashRound` (socket-server.js
lines 568-581): back to `wait`, increment `currentRound`, and start the
next round if the queue is non-empty. -/
def waitAdvance (s : GameState) : GameState :=
  let s1 := { s with gamePhase := Phase.wait, currentRound := s.currentRound + 1 }
  if s1.multiplierQueue ≠ [] then startNextRound s1 else s1

/-- `POST /queue` (socket-server.js lines 141-212), after authentication
and array validation: append the values to the queue, write the ledger
entries, and — only when the phase is `wait` or `crashed` and the queue
is now non-empty — run the synchronizer (under the `if (startRound)`
truthiness guard), demote `crashed` to `wait`, and start the next
round. -/
def queuePost (items : List Item) (startRound : ℕ) (s : GameState) : GameState :=
  let s1 : GameState :=
    { s with multiplierQueue := s.multiplierQueue ++ items.map itemMultiplier
             roundMultipliers := writeBatch s.roundMultipliers startRound 0 items }
  if (s1.gamePhase = .wait ∨ s1.gamePhase = .crashed) ∧ s1.multiplierQueue ≠ [] then
    startNextRound
      { s1 with
        currentRound :=
          if startRound ≠ 0 then syncRound s1.currentRound startRound s1.roundMultipliers
          else s1.currentRound
        gamePhase := .wait }
  else s1

/-- `POST /trigger-next` (socket-server.js lines 265-276): only when the
phase is `wait` or `crashed` and the queue is non-empty, demote to
`wait` and start the next round; otherwise reply failure without
touching state. -/
def triggerNextPost (s : GameState) : GameState :=
  if (s.gamePhase = .wait ∨ s.gamePhase = .crashed) ∧ s.multiplierQueue ≠ [] then
    startNextRound { s with gamePhase := .wait }
  else s

/-- `Math.min(...Array.from(roundMultipliers.keys()))` used by
`/force-start`.  (On an empty ledger JS yields `Infinity`; no natural
models that, so the model keeps the round unchanged — the claims below
never exercise that corner.) -/
def minKey (m : List (ℕ × ℚ)) (dflt : ℕ) : ℕ :=
  ((m.map fun p => p.1).min?).getD dflt

/-- `POST /force-start` (socket-server.js lines 292-322): an empty queue
replies failure with no state change; otherwise the phase is forced to
`wait` from ANY phase, `currentRound` is initialized from the smallest
ledger key when it is 0, and the next round starts. -/
def forceStartPost (s : GameState) : GameState :=
  if s.multiplierQueue = [] then s
  else
    startNextRound
      (if s.currentRound = 0 then
        { s with gamePhase := Phase.wait
                 currentRound := minKey s.roundMultipliers s.currentRound }
      else { s with gamePhase := Phase.wait })

/-- The externally triggerable state-mutating events of the server:
ingestion, the three scheduled callbacks (betting timer, the animation
tick that crosses the crash condition, wait timer), and the two manual
endpoints.  Read-only endpoints and socket connects mutate nothing. -/
inductive GEvent
  | ingest (items : List Item) (startRound : ℕ)
  | bettingTimeout
  | crashTick
  | waitTimeout
  | triggerNext
  | forceStart

/-- One step of the event-driven server loop.  Timer callbacks may fire
in ANY state: the source never clears `simulationInterval`,
`bettingTimer` or `waitTimer` when `/queue`, `/trigger-next` or
`/force-start` change phase (only `crashRound` itself clears the
animation interval, lines 556-559), so a stale animation tick can call
`crashRound()` during a later round's betting phase, and stale timeouts
can likewise fire out of phase.  Letting every pending-callback event
fire unconditionally over-approximates the reachable JS behaviours,
stale firings included. -/
def step (s : GameState) : GEvent → GameState
  | .ingest items startRound => queuePost items startRound s
  | .bettingTimeout => startFlyingPhase s
  | .crashTick => crashRound s
  | .waitTimeout => waitAdvance s
  | .triggerNext => triggerNextPost s
  | .forceStart => forceStartPost s

/-- `getMultiplierForRound(round)` (socket-server.js lines 79-82):
`roundMultipliers.get(round) || 1.00`, so a missing entry — and a stored
falsy `0` — both read as 1.00. -/
def getMultiplierForRound (ledger : List (ℕ × ℚ)) (round : ℕ) : ℚ :=
  match mapGet ledger round with
  | some m => if m = 0 then 1 else m
  | none => 1

/-- The `(multiplier, hasMultiplier)` pair returned by
`GET /test-round/:round` (socket-server.js lines 279-289). -/
def testRoundResponse (ledger : List (ℕ × ℚ)) (round : ℕ) : ℚ × Bool :=
  (getMultiplierForRound ledger round, hasEntry ledger round)

/-- The `currentMultiplier` field of `GET /health`
(socket-server.js line 122). -/
def healthCurrentMultiplier (s : GameState) : ℚ :=
  if s.gamePhase = .flying then s.currentMultiplier
  else getMultiplierForRound s.roundMultipliers s.currentRound

/-- Whether an event writes the ledger entry of round `r` when fired in
state `s`: an ingestion batch naming `r`, or a firing of the crash
handler — timely or stale, in any phase — while `currentRound = r`
(`crashRound` always targets the round that is current at fire time). -/
def eventWritesRound (s : GameState) (e : GEvent) (r : ℕ) : Bool :=
  match e with
  | .ingest items sr => decide (r ∈ batchRounds sr 0 items)
  | .crashTick => decide (s.currentRound = r)
  | _ => false

/-- State after ingesting round 5 (crash point 2) from a fresh server:
round 5 selected, phase `betting`, ledger `[(5, 2)]`. -/
def traceBettingState : GameState :=
  step initialState (.ingest [.tagged 2 5] 5)

/-- State after round 5 has fully played out (betting → flying → crashed
→ wait): `currentRound = 6`, empty queue, ledger `[(5, 2)]`. -/
def traceGapState : GameState :=
  step (step (step traceBettingState .bettingTimeout) .crashTick) .waitTimeout

/-- A flying round with a further multiplier still queued: rounds 5 and 6
ingested together, round 5 now flying, queue `[3]`. -/
def traceFlyingState : GameState :=
  step (step initialState (.ingest [.tagged 2 5, .tagged 3 6] 5)) .bettingTimeout

/-- An idle server that is ahead of the producer: local round 6, ledger
only knows round 5 — the gap-repair situation of the synchronizer. -/
def aheadIdleState : GameState :=
  { multiplierQueue := []
    roundMultipliers := [(5, 2)]
    currentRound := 6
    currentMultiplier := 1
    crashPoint := none
    gamePhase := .wait }

/-- An idle server pointed at a round the ledger has never seen. -/
def unplayedRoundState : GameState :=
  { initialState with currentRound := 7 }

/-!  Real-valued curve engine (socket-server.js lines 584-630) and the
flying-phase tick (lines 511-542).  JS `Math.random()` draws are explicit
parameters ranging over `[0,1)`. -/

noncomputable section

/-- `naturalDuration = Math.log(target) / UNIVERSAL_GROWTH_RATE` with
`UNIVERSAL_GROWTH_RATE = 0.08` (shared by `estimateTimeToMultiplier` and
`calculateMultiplier`). -/
def naturalDuration (target : ℝ) : ℝ :=
  Real.log target / 0.08

/-- `estimateTimeToMultiplier(target)` (socket-server.js lines 585-600):
the natural duration plus `(Math.random() - 0.5) * 0.5` seconds of
jitter; `rand` is the random draw. -/
def estimateTimeToMultiplier (target rand : ℝ) : ℝ :=
  naturalDuration target + (rand - 0.5) * 0.5

/-- `dynamicMultiplier = Math.exp(UNIVERSAL_GROWTH_RATE * progress *
naturalDuration)` (socket-server.js line 614). -/
def dynamicMultiplier (progress target : ℝ) : ℝ :=
  Real.exp (0.08 * progress * naturalDuration target)

/-- `steppedMultiplier = Math.floor(dynamicMultiplier * 100) / 100`
(socket-server.js line 617). -/
def steppedMultiplier (progress target : ℝ) : ℝ :=
  (⌊dynamicMultiplier progress target * 100⌋ : ℝ) / 100

/-- `calculateMultiplier(progress, target)` (socket-server.js lines
602-630): return `target` exactly at `progress >= 1.0`, otherwise the
stepped value clamped into `[1.00, target]`
(`Math.max(1.00, Math.min(Math.min(stepped, target), target))`). -/
def calculateMultiplier (progress target : ℝ) : ℝ :=
  if 1 ≤ progress then target
  else max 1 (min (min (steppedMultiplier progress target) target) target)

/-- `progress = Math.min(1, elapsedSec / timeToCrash)` computed by each
animation tick (socket-server.js line 517). -/
def tickProgress (elapsedSec timeToCrash : ℝ) : ℝ :=
  min 1 (elapsedSec / timeToCrash)

/-- The `currentMultiplier` computed by an animation tick at a given
elapsed time (socket-server.js line 520). -/
def flyTickMultiplier (elapsedSec timeToCrash crashPt : ℝ) : ℝ :=
  calculateMultiplier (tickProgress elapsedSec timeToCrash) crashPt

/-- The `multiplier:update` payload an animation tick broadcasts, if any:
the tick emits exactly when
`Math.abs(currentMultiplier - lastEmittedMultiplier) >= 0.01`
(socket-server.js lines 524-530). -/
def flyTickEmit (elapsedSec timeToCrash crashPt lastEmitted : ℝ) : Option ℝ :=
  if 0.01 ≤ |flyTickMultiplier elapsedSec timeToCrash crashPt - lastEmitted| then
    some (flyTickMultiplier elapsedSec timeToCrash crashPt)
  else none

end

/-!  Supporting lemmas about the association-list model of the ledger and
the state-machine components. -/

theorem mapGet_mapSet_ne (m : List (ℕ × ℚ)) (k r : ℕ) (v : ℚ) (h : k ≠ r) :
    mapGet (mapSet m k v) r = mapGet m r := by
  induction m with
  | nil => simp [mapSet, mapGet, h]
  | cons p rest ih =>
    obtain ⟨a, b⟩ := p
    by_cases hk : a = k
    · subst hk
      simp [mapSet, mapGet, h]
    · by_cases hr : a = r
      · subst hr
        simp [mapSet, mapGet, hk]
      · simp [mapSet, mapGet, hk, hr, ih]

theorem writeBatch_mapGet_notMem (items : List Item) :
    ∀ (m : List (ℕ × ℚ)) (sr idx r : ℕ), r ∉ batchRounds sr idx items →
      mapGet (writeBatch m sr idx items) r = mapGet m r := by
  induction items with
  | nil => intro m sr idx r _; rfl
  | cons it rest ih =>
    intro m sr idx r h
    rw [batchRounds] at h
    simp only [List.mem_cons, not_or] at h
    rw [writeBatch, ih _ _ _ _ h.2]
    exact mapGet_mapSet_ne _ _ _ _ fun hh => h.1 hh.symm

theorem startNextRound_currentRound (s : GameState) :
    (startNextRound s).currentRound = s.currentRound := by
  cases hq : s.multiplierQueue with
  | nil => simp [startNextRound, hq]
  | cons c rest =>
    cases hm : mapGet s.roundMultipliers s.currentRound with
    | none => simp [startNextRound, hq, hm, beginBetting]
    | some m =>
      by_cases h0 : m = 0 <;> simp [startNextRound, hq, hm, beginBetting, h0]

theorem startNextRound_roundMultipliers (s : GameState) :
    (startNextRound s).roundMultipliers = s.roundMultipliers := by
  cases hq : s.multiplierQueue with
  | nil => simp [startNextRound, hq]
  | cons c rest =>
    cases hm : mapGet s.roundMultipliers s.currentRound with
    | none => simp [startNextRound, hq, hm, beginBetting]
    | some m =>
      by_cases h0 : m = 0 <;> simp [startNextRound, hq, hm, beginBetting, h0]

theorem startNextRound_gamePhase_of_ne_nil (s : GameState)
    (h : s.multiplierQueue ≠ []) : (startNextRound s).gamePhase = .betting := by
  cases hq : s.multiplierQueue with
  | nil => exact absurd hq h
  | cons c rest =>
    cases hm : mapGet s.roundMultipliers s.currentRound with
    | none => simp [startNextRound, hq, hm, beginBetting]
    | some m =>
      by_cases h0 : m = 0 <;> simp [startNextRound, hq, hm, beginBetting, h0]

theorem crashRound_currentRound (s : GameState) :
    (crashRound s).currentRound = s.currentRound := by
  cases hc : s.crashPoint <;> simp [crashRound, hc]

theorem waitAdvance_currentRound (s : GameState) :
    (waitAdvance s).currentRound = s.currentRound + 1 := by
  rw [waitAdvance]
  split
  · rw [startNextRound_currentRound]
  · rfl

theorem waitAdvance_roundMultipliers (s : GameState) :
    (waitAdvance s).roundMultipliers = s.roundMultipliers := by
  rw [waitAdvance]
  split
  · rw [startNextRound_roundMultipliers]
  · rfl

theorem syncRound_eq_or (cur sr : ℕ) (L : List (ℕ × ℚ)) :
    syncRound cur sr L = cur ∨ syncRound cur sr L = sr := by
  rw [syncRound]
  split_ifs <;> simp

/-!  Claim theorems (discrete state machine). -/

/-- C2: for an ingestion batch carrying a (truthy) asserted `startRound`,
processed while the engine is idle (`wait` or `crashed`), `POST /queue`
corrects `currentRound` by exactly the claimed precedence: adopt
unconditionally when local round is 0 or behind; when ahead, adopt only
if the (batch-updated) ledger has no entry for the local round; keep it
when equal. -/
theorem claim2_sync_precedence (s : GameState) (items : List Item) (sr : ℕ)
    (hidle : s.gamePhase = .wait ∨ s.gamePhase = .crashed)
    (hsr : sr ≠ 0) (hitems : items ≠ []) :
    (queuePost items sr s).currentRound =
      if s.currentRound = 0 then sr
      else if s.currentRound < sr then sr
      else if sr < s.currentRound then
        if hasEntry (writeBatch s.roundMultipliers sr 0 items) s.currentRound then
          s.currentRound
        else sr
      else s.currentRound := by
  have hvals : s.multiplierQueue ++ items.map itemMultiplier ≠ [] := by
    cases items with
    | nil => exact absurd rfl hitems
    | cons a l => simp
  rw [queuePost]
  rw [if_pos ⟨hidle, hvals⟩, startNextRound_currentRound]
  show (if sr ≠ 0 then syncRound s.currentRound sr
          (writeBatch s.roundMultipliers sr 0 items) else s.currentRound) = _
  rw [if_pos hsr, syncRound, if_pos hsr]

/-- C2 witness: a concrete idle, ahead-of-producer state with no ledger
entry for the local round adopts the smaller asserted start round. -/
theorem claim2_sync_precedence_witness :
    (aheadIdleState.gamePhase = Phase.wait ∨ aheadIdleState.gamePhase = Phase.crashed) ∧
    (3 : ℕ) ≠ 0 ∧ ([Item.tagged 3 3] : List Item) ≠ [] ∧
    (queuePost [Item.tagged 3 3] 3 aheadIdleState).currentRound = 3 := by
  refine ⟨Or.inl rfl, by decide, by decide, ?_⟩
  rw [claim2_sync_precedence aheadIdleState [Item.tagged 3 3] 3 (Or.inl rfl)
    (by decide) (by decide)]
  decide

/-- C3 counterexample: after round 5 plays out the local round is 6; a
batch then asserting `startRound = 3` while the ledger has no entry for
round 6 makes the synchronizer jump `currentRound` from 6 down to 3 — a
strict decrease on a reachable trace. -/
theorem claim3_counterexample :
    traceGapState.currentRound = 6 ∧
    (step traceGapState (.ingest [.tagged 3 3] 3)).currentRound = 3 ∧
    (3 : ℕ) < 6 := by decide

/-- C3 amended: every event either keeps `currentRound` non-decreasing
or is an ingestion whose asserted `startRound` the synchronizer adopts —
so the gap-repair adoption of a producer-asserted smaller round is the
only way `currentRound` can decrease. -/
theorem claim3_round_monotone_except_gap (s : GameState) (e : GEvent) :
    s.currentRound ≤ (step s e).currentRound ∨
      ∃ items sr, e = .ingest items sr ∧ (step s e).currentRound = sr := by
  cases e with
  | ingest items sr =>
    rw [step, queuePost]
    split
    · rw [startNextRound_currentRound]
      show s.currentRound ≤ (if sr ≠ 0 then syncRound s.currentRound sr
            (writeBatch s.roundMultipliers sr 0 items) else s.currentRound) ∨ _
      split
      · rcases syncRound_eq_or s.currentRound sr
          (writeBatch s.roundMultipliers sr 0 items) with h | h
        · rw [h]; exact Or.inl le_rfl
        · exact Or.inr ⟨items, sr, rfl, h⟩
      · exact Or.inl le_rfl
    · exact Or.inl le_rfl
  | bettingTimeout =>
    rw [step]
    exact Or.inl le_rfl
  | crashTick =>
    rw [step, crashRound_currentRound]
    exact Or.inl le_rfl
  | waitTimeout =>
    rw [step, waitAdvance_currentRound]
    exact Or.inl (Nat.le_succ _)
  | triggerNext =>
    rw [step, triggerNextPost]
    split
    · rw [startNextRound_currentRound]
      exact Or.inl le_rfl
    · exact Or.inl le_rfl
  | forceStart =>
    rw [step]
    by_cases hq : s.multiplierQueue = []
    · rw [forceStartPost, if_pos hq]
      exact Or.inl le_rfl
    · by_cases hz : s.currentRound = 0
      · exact Or.inl (hz ▸ Nat.zero_le _)
      · left
        rw [forceStartPost, if_neg hq, startNextRound_currentRound, if_neg hz]

/-- C4 counterexample: round 5 is ingested with multiplier 2 (and the
round starts, so the entry is in active use); a second ingestion naming
round 5 with multiplier 3 overwrites the stored crash point —
`Map.set` in `POST /queue` is unconditional. -/
theorem claim4_counterexample :
    mapGet traceBettingState.roundMultipliers 5 = some 2 ∧
    mapGet (step traceBettingState (.ingest [.tagged 3 5] 5)).roundMultipliers 5 = some 3 ∧
    (2 : ℚ) ≠ 3 := by decide

/-- C4 amended: a ledger entry for round `r` is preserved by every event
that does not write it — i.e. by any ingestion batch not naming `r` and
by any firing of the crash handler (timely or stale, in any phase)
while a round other than `r` is current; only those two writes can
change it. -/
theorem claim4_ledger_preserved_unless_written (s : GameState) (e : GEvent) (r : ℕ)
    (h : eventWritesRound s e r = false) :
    mapGet (step s e).roundMultipliers r = mapGet s.roundMultipliers r := by
  cases e with
  | ingest items sr =>
    have hmem : r ∉ batchRounds sr 0 items := by
      simpa [eventWritesRound] using h
    rw [step, queuePost]
    split
    · rw [startNextRound_roundMultipliers]
      exact writeBatch_mapGet_notMem items _ _ _ _ hmem
    · exact writeBatch_mapGet_notMem items _ _ _ _ hmem
  | bettingTimeout =>
    rw [step]
    rfl
  | crashTick =>
    have hne : s.currentRound ≠ r := by
      simpa [eventWritesRound] using h
    rw [step]
    cases hc : s.crashPoint with
    | none => rw [crashRound, hc]
    | some c =>
      rw [crashRound, hc]
      exact mapGet_mapSet_ne _ _ _ _ hne
  | waitTimeout =>
    rw [step, waitAdvance_roundMultipliers]
  | triggerNext =>
    rw [step, triggerNextPost]
    split
    · rw [startNextRound_roundMultipliers]
    · rfl
  | forceStart =>
    rw [step, forceStartPost]
    split
    · rfl
    · rw [startNextRound_roundMultipliers]
      split <;> rfl

/-- C4 witness: an ingestion naming only round 6 leaves the stored entry
for round 5 untouched. -/
theorem claim4_preserved_witness :
    eventWritesRound traceBettingState (.ingest [.tagged 3 6] 6) 5 = false ∧
    mapGet (step traceBettingState (.ingest [.tagged 3 6] 6)).roundMultipliers 5 =
      mapGet traceBettingState.roundMultipliers 5 :=
  ⟨by decide, claim4_ledger_preserved_unless_written _ _ _ (by decide)⟩

/-- C7 counterexample: with round 5 flying and a multiplier still
queued, `POST /force-start` does mutate state — it forces the phase
from `flying` back through `wait` into `betting`, so the manual
triggers are not uncallable during active phases. -/
theorem claim7_counterexample :
    traceFlyingState.gamePhase = .flying ∧
    traceFlyingState.multiplierQueue ≠ [] ∧
    (step traceFlyingState .forceStart).gamePhase = .betting ∧
    Phase.betting ≠ Phase.flying := by decide

/-- C7 amended: `POST /trigger-next` indeed acts only when idle — during
`betting`/`flying` it leaves the state entirely unchanged, and when idle
with a non-empty queue it performs the wait→betting step; but
`POST /force-start` is gated only on a non-empty queue: (no-op exactly
when the queue is empty, and otherwise it forces the phase to `betting`
from ANY phase, including active `betting`/`flying`). -/
theorem claim7_manual_triggers (s : GameState) :
    ((s.gamePhase = .betting ∨ s.gamePhase = .flying) → step s .triggerNext = s) ∧
    ((s.gamePhase = .wait ∨ s.gamePhase = .crashed) → s.multiplierQueue ≠ [] →
      (step s .triggerNext).gamePhase = .betting) ∧
    (s.multiplierQueue = [] → step s .forceStart = s) ∧
    (s.multiplierQueue ≠ [] → (step s .forceStart).gamePhase = .betting) := by
  refine ⟨?_, ?_, ?_, ?_⟩
  · intro h
    rw [step, triggerNextPost, if_neg]
    rintro ⟨hp, -⟩
    rcases h with h | h <;> rcases hp with hp | hp <;> rw [h] at hp <;> cases hp
  · intro hp hq
    rw [step, triggerNextPost, if_pos ⟨hp, hq⟩]
    exact startNextRound_gamePhase_of_ne_nil _ hq
  · intro h
    rw [step, forceStartPost, if_pos h]
  · intro h
    rw [step, forceStartPost, if_neg h]
    refine startNextRound_gamePhase_of_ne_nil _ ?_
    split <;> exact h

/-- C7 witness: at the concrete flying state, `trigger-next` is a
no-op, while `force-start` (queue non-empty) lands in `betting`. -/
theorem claim7_manual_triggers_witness :
    (traceFlyingState.gamePhase = Phase.betting ∨
      traceFlyingState.gamePhase = Phase.flying) ∧
    step traceFlyingState .triggerNext = traceFlyingState ∧
    traceFlyingState.multiplierQueue ≠ [] ∧
    (step traceFlyingState .forceStart).gamePhase = Phase.betting :=
  ⟨Or.inr (by decide),
   (claim7_manual_triggers traceFlyingState).1 (Or.inr (by decide)),
   by decide,
   (claim7_manual_triggers traceFlyingState).2.2.2 (by decide)⟩

/-- C10 counterexample: `GET /test-round` answers `multiplier = 1.00`
for a never-assigned round, but its `hasMultiplier` field is `false`
there and `true` for a genuinely stored 1.00 crash — an explicit absence
marker that makes the two cases distinguishable. -/
theorem claim10_counterexample :
    testRoundResponse [] 7 = (1, false) ∧
    testRoundResponse [(7, 1)] 7 = (1, true) ∧
    ((1 : ℚ), false) ≠ ((1 : ℚ), true) := by decide

/-- C10 amended: for a round with no ledger entry,
`getMultiplierForRound` defaults to 1.00, so `/health` (outside flying)
reports `currentMultiplier = 1.00` and `/test-round` reports
`multiplier = 1.00` with no error — but `/test-round` additionally
surfaces the absence through `hasMultiplier = false`. -/
theorem claim10_missing_round_reads_one (s : GameState)
    (h1 : mapGet s.roundMultipliers s.currentRound = none)
    (h2 : s.gamePhase ≠ .flying) :
    healthCurrentMultiplier s = 1 ∧
    testRoundResponse s.roundMultipliers s.currentRound = (1, false) := by
  constructor
  · rw [healthCurrentMultiplier, if_neg h2, getMultiplierForRound, h1]
  · rw [testRoundResponse, getMultiplierForRound, h1, hasEntry, h1]
    rfl

/-- C10 witness: a fresh server pointed at round 7. -/
theorem claim10_missing_round_witness :
    mapGet unplayedRoundState.roundMultipliers unplayedRoundState.currentRound = none ∧
    unplayedRoundState.gamePhase ≠ Phase.flying ∧
    healthCurrentMultiplier unplayedRoundState = 1 ∧
    testRoundResponse unplayedRoundState.roundMultipliers
      unplayedRoundState.currentRound = (1, false) :=
  ⟨by decide, by decide,
   (claim10_missing_round_reads_one unplayedRoundState (by decide) (by decide)).1,
   (claim10_missing_round_reads_one unplayedRoundState (by decide) (by decide)).2⟩

/-!  Claim theorems (real-valued curve engine). -/

theorem exp_le_inv_one_sub (x : ℝ) (hx : x < 1) : Real.exp x ≤ (1 - x)⁻¹ := by
  have h1 : (0 : ℝ) < 1 - x := by linarith
  have h2 : 1 - x ≤ (Real.exp x)⁻¹ := by
    have h := Real.add_one_le_exp (-x)
    rw [Real.exp_neg] at h
    linarith
  have h3 : (1 - x) * Real.exp x ≤ 1 := by
    have h := mul_le_mul_of_nonneg_right h2 (Real.exp_pos x).le
    rwa [inv_mul_cancel₀ (Real.exp_ne_zero x)] at h
  rw [← one_div, le_div_iff₀ h1]
  nlinarith [h3]

theorem dynamicMultiplier_eq (p C : ℝ) :
    dynamicMultiplier p C = Real.exp (p * Real.log C) := by
  rw [dynamicMultiplier, naturalDuration]
  congr 1
  field_simp
  ring

theorem calculateMultiplier_le_target (p C : ℝ) (hC : 1 ≤ C) :
    calculateMultiplier p C ≤ C := by
  rw [calculateMultiplier]
  split
  · exact le_rfl
  · exact max_le hC (min_le_right _ _)

/-- C1: the curve starts at exactly 1.00, ends at exactly the crash
point `C` (no overshoot), and never exceeds `C` at any progress. -/
theorem claim1_curve_boundary (C p : ℝ) (hC : 1 ≤ C) (hp0 : 0 ≤ p) (hp1 : p ≤ 1) :
    calculateMultiplier 0 C = 1 ∧ calculateMultiplier 1 C = C ∧
    calculateMultiplier p C ≤ C := by
  refine ⟨?_, ?_, calculateMultiplier_le_target p C hC⟩
  · rw [calculateMultiplier, if_neg (by norm_num : ¬ (1 : ℝ) ≤ 0)]
    have hdyn : dynamicMultiplier 0 C = 1 := by
      rw [dynamicMultiplier_eq, zero_mul, Real.exp_zero]
    have hstep : steppedMultiplier 0 C = 1 := by
      rw [steppedMultiplier, hdyn]
      rw [show (1 : ℝ) * 100 = ((100 : ℤ) : ℝ) by norm_num, Int.floor_intCast]
      norm_num
    rw [hstep, min_eq_left hC, min_eq_left hC, max_self]
  · rw [calculateMultiplier, if_pos le_rfl]

/-- C1 witness at `C = 2`, `p = 1/2`. -/
theorem claim1_curve_boundary_witness :
    ((1 : ℝ) ≤ 2 ∧ (0 : ℝ) ≤ 1 / 2 ∧ (1 / 2 : ℝ) ≤ 1) ∧
    calculateMultiplier 0 2 = 1 ∧ calculateMultiplier 1 2 = 2 ∧
    calculateMultiplier (1 / 2) 2 ≤ 2 :=
  ⟨⟨one_le_two, by norm_num, by norm_num⟩,
   claim1_curve_boundary 2 (1 / 2) one_le_two (by norm_num) (by norm_num)⟩

/-- C5: for a fixed crash point `C ≥ 1`, the curve is monotone
non-decreasing in progress over `[0, 1]` — the display never counts
down. -/
theorem claim5_curve_monotone (C p₁ p₂ : ℝ) (hC : 1 ≤ C) (hp0 : 0 ≤ p₁)
    (h12 : p₁ ≤ p₂) (hp2 : p₂ ≤ 1) :
    calculateMultiplier p₁ C ≤ calculateMultiplier p₂ C := by
  by_cases h2 : 1 ≤ p₂
  · have he : calculateMultiplier p₂ C = C := by
      rw [calculateMultiplier, if_pos h2]
    rw [he]
    exact calculateMultiplier_le_target p₁ C hC
  · have h1 : ¬ 1 ≤ p₁ := fun h => h2 (h.trans h12)
    have e1 : calculateMultiplier p₁ C =
        max 1 (min (min (steppedMultiplier p₁ C) C) C) := by
      rw [calculateMultiplier, if_neg h1]
    have e2 : calculateMultiplier p₂ C =
        max 1 (min (min (steppedMultiplier p₂ C) C) C) := by
      rw [calculateMultiplier, if_neg h2]
    rw [e1, e2]
    have hdyn : dynamicMultiplier p₁ C ≤ dynamicMultiplier p₂ C := by
      rw [dynamicMultiplier_eq, dynamicMultiplier_eq]
      exact Real.exp_le_exp.mpr (mul_le_mul_of_nonneg_right h12 (Real.log_nonneg hC))
    have hstep : steppedMultiplier p₁ C ≤ steppedMultiplier p₂ C := by
      rw [steppedMultiplier, steppedMultiplier]
      have hfl : (⌊dynamicMultiplier p₁ C * 100⌋ : ℝ) ≤
          (⌊dynamicMultiplier p₂ C * 100⌋ : ℝ) := by
        exact_mod_cast Int.floor_le_floor (by linarith)
      linarith
    exact max_le_max le_rfl (min_le_min (min_le_min hstep le_rfl) le_rfl)

/-- C5 witness at `C = 2`, `p₁ = 1/4`, `p₂ = 3/4`. -/
theorem claim5_curve_monotone_witness :
    ((1 : ℝ) ≤ 2 ∧ (0 : ℝ) ≤ 1 / 4 ∧ (1 / 4 : ℝ) ≤ 3 / 4 ∧ (3 / 4 : ℝ) ≤ 1) ∧
    calculateMultiplier (1 / 4) 2 ≤ calculateMultiplier (3 / 4) 2 :=
  ⟨⟨one_le_two, by norm_num, by norm_num, by norm_num⟩,
   claim5_curve_monotone 2 (1 / 4) (3 / 4) one_le_two (by norm_num) (by norm_num)
     (by norm_num)⟩

/-- C6 counterexample: realized durations are NOT monotone in the crash
point — with admissible random draws (both in `[0,1)`), the estimated
duration for target 2.001 can be strictly below the one for target 2,
because the ±0.25 s jitter dwarfs the 0.006 s gap in base duration. -/
theorem claim6_counterexample :
    (2 : ℝ) ≤ 2.001 ∧
    (0 : ℝ) ≤ 9 / 10 ∧ (9 / 10 : ℝ) < 1 ∧ (0 : ℝ) ≤ 1 / 10 ∧ (1 / 10 : ℝ) < 1 ∧
    estimateTimeToMultiplier 2.001 (1 / 10) < estimateTimeToMultiplier 2 (9 / 10) := by
  refine ⟨by norm_num, by norm_num, by norm_num, by norm_num, by norm_num, ?_⟩
  rw [estimateTimeToMultiplier, estimateTimeToMultiplier, naturalDuration, naturalDuration]
  have key : Real.log 2.001 - Real.log 2 ≤ 0.0005 := by
    rw [← Real.log_div (by norm_num) (by norm_num)]
    have h2 := Real.log_le_sub_one_of_pos (show (0 : ℝ) < 2.001 / 2 by norm_num)
    linarith
  have e1 : Real.log 2.001 / 0.08 = Real.log 2.001 * 12.5 := by
    rw [div_eq_mul_inv]
    norm_num
  have e2 : Real.log 2 / 0.08 = Real.log 2 * 12.5 := by
    rw [div_eq_mul_inv]
    norm_num
  rw [e1, e2]
  nlinarith [key]

/-- C6 amended: the deterministic base duration `ln C / 0.08` is
monotone non-decreasing in `C`; the randomness deviates from it by at
most 0.25 s (within the claimed ~0.5 s bound); hence realized durations
are monotone only up to 0.5 s of jitter. -/
theorem claim6_duration_monotone_up_to_jitter (C₁ C₂ r₁ r₂ : ℝ)
    (hC1 : 1 ≤ C₁) (hC12 : C₁ ≤ C₂) (hr1 : 0 ≤ r₁) (hr1b : r₁ ≤ 1)
    (hr2 : 0 ≤ r₂) (hr2b : r₂ ≤ 1) :
    naturalDuration C₁ ≤ naturalDuration C₂ ∧
    |estimateTimeToMultiplier C₁ r₁ - naturalDuration C₁| ≤ 1 / 4 ∧
    estimateTimeToMultiplier C₁ r₁ ≤ estimateTimeToMultiplier C₂ r₂ + 1 / 2 := by
  have hmono : naturalDuration C₁ ≤ naturalDuration C₂ := by
    rw [naturalDuration, naturalDuration]
    have hlog : Real.log C₁ ≤ Real.log C₂ :=
      Real.log_le_log (lt_of_lt_of_le zero_lt_one hC1) hC12
    exact (div_le_div_iff_of_pos_right (by norm_num)).mpr hlog
  have hjit : ∀ C r : ℝ, 0 ≤ r → r ≤ 1 →
      |estimateTimeToMultiplier C r - naturalDuration C| ≤ 1 / 4 := by
    intro C r h0 h1
    rw [estimateTimeToMultiplier, add_sub_cancel_left, abs_le]
    constructor <;> linarith
  have h1 := hjit C₁ r₁ hr1 hr1b
  have h2 := hjit C₂ r₂ hr2 hr2b
  rw [abs_le] at h1 h2
  exact ⟨hmono, hjit C₁ r₁ hr1 hr1b, by linarith [h1.1, h1.2, h2.1, h2.2]⟩

/-- C6 amended witness at `C₁ = 2`, `C₂ = 3`, both draws `1/2`. -/
theorem claim6_duration_witness :
    ((1 : ℝ) ≤ 2 ∧ (2 : ℝ) ≤ 3 ∧ (0 : ℝ) ≤ 1 / 2 ∧ (1 / 2 : ℝ) ≤ 1) ∧
    naturalDuration 2 ≤ naturalDuration 3 ∧
    |estimateTimeToMultiplier 2 (1 / 2) - naturalDuration 2| ≤ 1 / 4 ∧
    estimateTimeToMultiplier 2 (1 / 2) ≤ estimateTimeToMultiplier 3 (1 / 2) + 1 / 2 :=
  ⟨⟨one_le_two, by norm_num, by norm_num, by norm_num⟩,
   claim6_duration_monotone_up_to_jitter 2 3 (1 / 2) (1 / 2) one_le_two (by norm_num)
     (by norm_num) (by norm_num) (by norm_num) (by norm_num)⟩

theorem calculateMultiplier_target_one (p : ℝ) : calculateMultiplier p 1 = 1 := by
  have hdyn : dynamicMultiplier p 1 = 1 := by
    rw [dynamicMultiplier_eq, Real.log_one, mul_zero, Real.exp_zero]
  have hstep : steppedMultiplier p 1 = 1 := by
    rw [steppedMultiplier, hdyn]
    rw [show (1 : ℝ) * 100 = ((100 : ℤ) : ℝ) by norm_num, Int.floor_intCast]
    norm_num
  rw [calculateMultiplier]
  split
  · rfl
  · rw [hstep]
    simp

/-- C8 amended, part that holds of socket-server.js: a round whose crash
point is exactly 1.00 never emits a `multiplier:update` at all — every
tick computes exactly 1.00, so the `>= 0.01` change gate never opens
(and the `currentMultiplier >= crashPoint` crash check fires on the very
first tick).  The instant-crash bypass below 1.03 exists only in the
older revision; see the counterexample for crash points in (1.00, 1.03). -/
theorem claim8_crash_point_one_silent (e T : ℝ) :
    flyTickEmit e T 1 1 = none ∧ flyTickMultiplier e T 1 = 1 := by
  have hm : flyTickMultiplier e T 1 = 1 := calculateMultiplier_target_one _
  refine ⟨?_, hm⟩
  rw [flyTickEmit, hm, sub_self, abs_zero, if_neg (by norm_num : ¬ (0.01 : ℝ) ≤ 0)]

/-- C8 counterexample: socket-server.js has no instant-crash branch, so
a round with crash point 1.02 (below the 1.03 threshold the claim
names) CAN emit an intermediate `multiplier:update` strictly between
1.00 and the crash point.  Concretely, with the jitter-free duration
`naturalDuration 1.02` (random draw 1/2), the 100 ms tick at 0.1 s
emits nothing (value still 1.00) and the tick at 0.2 s emits 1.01 —
a value that is neither 1.00 nor the crash point. -/
theorem claim8_counterexample :
    (1 : ℝ) < 1.02 ∧ (1.02 : ℝ) < 1.03 ∧
    flyTickEmit (1 / 10) (naturalDuration 1.02) 1.02 1 = none ∧
    flyTickEmit (2 / 10) (naturalDuration 1.02) 1.02 1 = some (101 / 100) ∧
    (1 : ℝ) < 101 / 100 ∧ (101 / 100 : ℝ) < 1.02 := by
  have hL0 : (0 : ℝ) < Real.log 1.02 := Real.log_pos (by norm_num)
  have hLne : Real.log 1.02 ≠ 0 := ne_of_gt hL0
  have hub : Real.exp 0.016 < 1.02 := by
    have h := exp_le_inv_one_sub 0.016 (by norm_num)
    have h2 : ((1 : ℝ) - 0.016)⁻¹ < 1.02 := by norm_num
    linarith
  have hub8 : Real.exp 0.008 < 1.01 := by
    have h := exp_le_inv_one_sub 0.008 (by norm_num)
    have h2 : ((1 : ℝ) - 0.008)⁻¹ < 1.01 := by norm_num
    linarith
  have hlb : (1.016 : ℝ) ≤ Real.exp 0.016 := by
    have h := Real.add_one_le_exp (0.016 : ℝ)
    linarith
  have hlb8 : (1.008 : ℝ) ≤ Real.exp 0.008 := by
    have h := Real.add_one_le_exp (0.008 : ℝ)
    linarith
  have hL016 : (0.016 : ℝ) < Real.log 1.02 :=
    (Real.lt_log_iff_exp_lt (by norm_num)).mpr hub
  have hprog2 : tickProgress (2 / 10) (naturalDuration 1.02) =
      0.016 / Real.log 1.02 := by
    rw [tickProgress, naturalDuration, div_div_eq_mul_div, min_eq_right]
    · norm_num
    · rw [div_le_one hL0]
      linarith
  have hprog1 : tickProgress (1 / 10) (naturalDuration 1.02) =
      0.008 / Real.log 1.02 := by
    rw [tickProgress, naturalDuration, div_div_eq_mul_div, min_eq_right]
    · norm_num
    · rw [div_le_one hL0]
      linarith
  have hdyn2 : dynamicMultiplier (0.016 / Real.log 1.02) 1.02 = Real.exp 0.016 := by
    rw [dynamicMultiplier_eq, div_mul_cancel₀ _ hLne]
  have hdyn1 : dynamicMultiplier (0.008 / Real.log 1.02) 1.02 = Real.exp 0.008 := by
    rw [dynamicMultiplier_eq, div_mul_cancel₀ _ hLne]
  have hfloor2 : (⌊Real.exp 0.016 * 100⌋ : ℤ) = 101 := by
    rw [Int.floor_eq_iff]
    constructor
    · push_cast
      linarith
    · push_cast
      linarith
  have hfloor1 : (⌊Real.exp 0.008 * 100⌋ : ℤ) = 100 := by
    rw [Int.floor_eq_iff]
    constructor
    · push_cast
      linarith
    · push_cast
      linarith
  have hstep2 : steppedMultiplier (0.016 / Real.log 1.02) 1.02 = 101 / 100 := by
    rw [steppedMultiplier, hdyn2, hfloor2]
    norm_num
  have hstep1 : steppedMultiplier (0.008 / Real.log 1.02) 1.02 = 1 := by
    rw [steppedMultiplier, hdyn1, hfloor1]
    norm_num
  have hnotone2 : ¬ (1 : ℝ) ≤ 0.016 / Real.log 1.02 := by
    rw [not_le, div_lt_one hL0]
    exact hL016
  have hnotone1 : ¬ (1 : ℝ) ≤ 0.008 / Real.log 1.02 := by
    rw [not_le, div_lt_one hL0]
    linarith
  have hcur2 : flyTickMultiplier (2 / 10) (naturalDuration 1.02) 1.02 = 101 / 100 := by
    rw [flyTickMultiplier, hprog2, calculateMultiplier, if_neg hnotone2, hstep2]
    rw [min_eq_left (by norm_num : (101 : ℝ) / 100 ≤ 1.02),
        min_eq_left (by norm_num : (101 : ℝ) / 100 ≤ 1.02),
        max_eq_right (by norm_num : (1 : ℝ) ≤ 101 / 100)]
  have hcur1 : flyTickMultiplier (1 / 10) (naturalDuration 1.02) 1.02 = 1 := by
    rw [flyTickMultiplier, hprog1, calculateMultiplier, if_neg hnotone1, hstep1]
    rw [min_eq_left (by norm_num : (1 : ℝ) ≤ 1.02),
        min_eq_left (by norm_num : (1 : ℝ) ≤ 1.02),
        max_self]
  refine ⟨by norm_num, by norm_num, ?_, ?_, by norm_num, by norm_num⟩
  · rw [flyTickEmit, hcur1, sub_self, abs_zero,
      if_neg (by norm_num : ¬ (0.01 : ℝ) ≤ 0)]
  · rw [flyTickEmit, hcur2, show (101 : ℝ) / 100 - 1 = 0.01 by norm_num,
      abs_of_nonneg (by norm_num : (0 : ℝ) ≤ 0.01), if_pos le_rfl]

/-- C9: a flying-phase tick emits a `multiplier:update` only when the
computed value actually moved away from the previously emitted one:
whenever the previous emission is a whole number of hundredths `k/100`
(as every in-flight emission is) and the tick does emit `v`, then
`v ≠ last` and the two values quantize to different hundredths — the
same quantized value is never broadcast twice in a row. -/
theorem claim9_emit_only_on_quantized_change (e T C last v : ℝ) (k : ℤ)
    (hlast : last = (k : ℝ) / 100)
    (hemit : flyTickEmit e T C last = some v) :
    v ≠ last ∧ ⌊v * 100⌋ ≠ ⌊last * 100⌋ := by
  rw [flyTickEmit] at hemit
  by_cases hc : (0.01 : ℝ) ≤ |flyTickMultiplier e T C - last|
  · rw [if_pos hc] at hemit
    have hv : flyTickMultiplier e T C = v := Option.some.inj hemit
    rw [hv] at hc
    constructor
    · intro hvl
      rw [hvl, sub_self, abs_zero] at hc
      norm_num at hc
    · subst hlast
      have hk : ⌊(k : ℝ) / 100 * 100⌋ = k := by
        rw [div_mul_cancel₀ _ (by norm_num : (100 : ℝ) ≠ 0), Int.floor_intCast]
      rw [hk]
      rcases le_abs.mp hc with h | h
      · intro heq
        have h1 : ((k + 1 : ℤ) : ℝ) ≤ v * 100 := by
          push_cast
          nlinarith
        have h2 := Int.le_floor.mpr h1
        omega
      · intro heq
        have h1 : v * 100 ≤ ((k - 1 : ℤ) : ℝ) := by
          push_cast
          nlinarith
        have h2 : ⌊v * 100⌋ ≤ k - 1 := by
          have h3 := Int.floor_le_floor h1
          rwa [Int.floor_intCast] at h3
        omega
  · rw [if_neg hc] at hemit
    exact Option.noConfusion hemit

/-- C9 witness: a tick that reaches the target (progress 1, crash point
2) emits `2`, which differs from the previous hundredth `1 = 100/100`
in value and in quantization. -/
theorem claim9_emit_witness :
    ((1 : ℝ) = ((100 : ℤ) : ℝ) / 100) ∧
    flyTickEmit 1 1 2 1 = some 2 ∧
    ((2 : ℝ) ≠ 1 ∧ ⌊(2 : ℝ) * 100⌋ ≠ ⌊(1 : ℝ) * 100⌋) := by
  have hm : flyTickMultiplier 1 1 2 = 2 := by
    rw [flyTickMultiplier, tickProgress, div_one, min_self, calculateMultiplier,
      if_pos le_rfl]
  have hemit : flyTickEmit 1 1 2 1 = some 2 := by
    rw [flyTickEmit, hm, show (2 : ℝ) - 1 = 1 by norm_num,
      abs_of_nonneg (by norm_num : (0 : ℝ) ≤ 1), if_pos (by norm_num)]
  exact ⟨by norm_num, hemit,
    claim9_emit_only_on_quantized_change 1 1 2 1 2 100 (by norm_num) hemit⟩
